import Mathlib

/-!
Formal model of the czi2tif acquisition traversal and assembly engine
(`src/czi2tif/read.py` and `src/czi2tif/export.py`): calibration
resolution, shape classification, plane assembly and the per-file export
drivers.  The embedding is shallow: Python exceptions become explicit
`Except Err` propagation, the container reader becomes an oracle record of
pure functions, pixel arrays are tracked by their shapes, and the numpy
operations used by the code (`squeeze`, `swapaxes(0,1)`, `np.array` on
nested lists) are modelled on shapes.  Read and write calls are recorded
as explicit event traces so that statements about which reads are issued
and which artifacts are written can be proved.
-/

/-- Python exception kinds that the modelled code can raise. -/
inductive Err where
  | indexError
  | keyError
  | valueError
  | typeError
  | attributeError
  | zeroDivisionError
  | raggedArray
  | axisError
  | readError
deriving DecidableEq, Repr

deriving instance DecidableEq for Except

/-- `xs[i]` on a Python list: `IndexError` when out of bounds
(negative indices are never used by the modelled code). -/
def listGet {α : Type} (xs : List α) (i : Nat) : Except Err α :=
  match xs.get? i with
  | some v => Except.ok v
  | none => Except.error Err.indexError

/-- One shape-table row of `CziFile.get_dims_shape()`: a mapping from axis
code to the `(start, count)` pair; the code reads the count with `[-1]`,
modelled as `.2`. -/
abbrev ShapeEntry := List (String × (Int × Nat))

/-- `entry[k]` on a shape dictionary: `KeyError` when the axis is absent. -/
def dictGet (e : ShapeEntry) (k : String) : Except Err (Int × Nat) :=
  match e.lookup k with
  | some v => Except.ok v
  | none => Except.error Err.keyError

/-- The whole `get_dims_shape()` result: one row per declared subblock set. -/
abbrev CziShape := List ShapeEntry

/-- `ndarray.squeeze()` on a shape: drop every axis of length 1. -/
def npSqueeze (s : List Nat) : List Nat :=
  s.filter (fun n => n != 1)

/-- `np.swapaxes(a, 0, 1)` on a shape: swap the two leading axes;
numpy raises when the array has fewer than two axes. -/
def npSwap01 : List Nat → Except Err (List Nat)
  | a :: b :: rest => Except.ok (b :: a :: rest)
  | _ => Except.error Err.axisError

/-- Shape of `np.array` applied to a list of equally shaped subarrays:
`(n, *s)`; a ragged list is rejected (numpy raises on ragged input). -/
def npArrayShape1 : List (List Nat) → Except Err (List Nat)
  | [] => Except.ok [0]
  | s :: rest =>
    if rest.all (fun t => t == s) then Except.ok ((rest.length + 1) :: s)
    else Except.error Err.raggedArray

/-- Shapes of the rows of a doubly nested list fed to `np.array`. -/
def npMapShape1 : List (List (List Nat)) → Except Err (List (List Nat))
  | [] => Except.ok []
  | row :: rest =>
    match npArrayShape1 row with
    | Except.error e => Except.error e
    | Except.ok s =>
      match npMapShape1 rest with
      | Except.error e => Except.error e
      | Except.ok ss => Except.ok (s :: ss)

/-- Shape of `np.array` applied to a doubly nested list of subarrays. -/
def npArrayShape2 (xss : List (List (List Nat))) : Except Err (List Nat) :=
  match npMapShape1 xss with
  | Except.error e => Except.error e
  | Except.ok rows => npArrayShape1 rows

/-- The text of a `<Value>` XML element as seen by `float(...)`: either
numeric (floats idealised as rationals) or text that fails to parse. -/
inductive Txt where
  | num (q : ℚ)
  | nonNum
deriving DecidableEq

/-- The metadata document as consulted by `get_resolution`: for each of the
axis ids `X`, `Y`, `Z`, the result of `root.find(".//Distance[@Id=..]/Value")`
(`none` = element absent) together with the element's `.text`
(inner `none` = empty text). -/
structure CziMeta where
  distX : Option (Option Txt)
  distY : Option (Option Txt)
  distZ : Option (Option Txt)

/-- Python `float(text)`: `TypeError` on `None`, `ValueError` on
non-numeric text. -/
def pyFloat : Option Txt → Except Err ℚ
  | none => Except.error Err.typeError
  | some Txt.nonNum => Except.error Err.valueError
  | some (Txt.num q) => Except.ok q

/-- Python division: `ZeroDivisionError` on a zero denominator. -/
def pyDiv (a b : ℚ) : Except Err ℚ :=
  if b = 0 then Except.error Err.zeroDivisionError else Except.ok (a / b)

/-- `get_resolution` from `read.py`: pixels-per-micron from the metadata
document.  Missing `X` record falls back to `(1, 1, 1)`; the `Z` component
is optional and a parse failure there is recovered to a 2-component
result, while a missing `Y` element or malformed `X`/`Y` text raises. -/
def get_resolution (metadata : CziMeta) : Except Err (List ℚ) :=
  match metadata.distX with
  | none => Except.ok [1, 1, 1]
  | some tx =>
    match pyFloat tx with
    | Except.error e => Except.error e
    | Except.ok res_x0 =>
      match pyDiv 1 (res_x0 * 1000000) with
      | Except.error e => Except.error e
      | Except.ok res_x =>
        match (match metadata.distY with
               | none => Except.error Err.attributeError
               | some ty => pyFloat ty) with
        | Except.error e => Except.error e
        | Except.ok res_y0 =>
          match pyDiv 1 (res_y0 * 1000000) with
          | Except.error e => Except.error e
          | Except.ok res_y =>
            match metadata.distZ with
            | some (some tz) =>
              match pyFloat (some tz) with
              | Except.error Err.valueError => Except.ok [res_x, res_y]
              | Except.error e => Except.error e
              | Except.ok res_z0 =>
                match pyDiv 1 (res_z0 * 1000000) with
                | Except.error e => Except.error e
                | Except.ok res_z => Except.ok [res_x, res_y, res_z]
            | _ => Except.ok [res_x, res_y]

/-- `has_scenes` from `read.py`: the dimension string contains `S`. -/
def has_scenes (czi_dims : String) : Bool :=
  czi_dims.data.contains 'S'

/-- `has_mosaics` from `read.py`: the dimension string contains `M`. -/
def has_mosaics (czi_dims : String) : Bool :=
  czi_dims.data.contains 'M'

/-- `has_stacks` from `read.py`: the dimension string contains `Z`. -/
def has_stacks (czi_dims : String) : Bool :=
  czi_dims.data.contains 'Z'

/-- Python `str.lower()` on the ASCII extensions handled here. -/
def pyLower (s : String) : String :=
  String.mk (s.data.map Char.toLower)

/-- One mosaic tile-group bounding box, as returned by
`get_all_mosaic_scene_bounding_boxes()`. -/
structure BBox where
  x : Int
  y : Int
  w : Int
  h : Int
deriving DecidableEq, Repr

/-- One read call issued against the container reader: either
`read_image(S, Z?, C?)` or `read_mosaic(region, scale_factor, C, Z?)`. -/
inductive ReadEvent where
  | image (s : Nat) (z : Option Nat) (c : Option Nat)
  | mosaic (region : Int × Int × Int × Int) (scale : Nat) (c : Nat) (z : Option Nat)
deriving DecidableEq, Repr

/-- The open CZI container handle: the immutable dimension string, shape
table, metadata document and bounding boxes it exposes, and oracle
functions giving the outcome of each read call (result array shape, plus
the dimension labels for `read_image`). -/
structure CziFile where
  dims : String
  shape : CziShape
  meta : CziMeta
  bboxes : List BBox
  read_image : Nat → Option Nat → Option Nat → Except Err (List Nat × List String)
  read_mosaic : Int × Int × Int × Int → Nat → Nat → Option Nat → Except Err (List Nat)

/-- `get_scene_data` from `read.py`: one whole-scene read. -/
def get_scene_data (czi : CziFile) (entry_index : Nat) :
    Except Err ((List Nat × List String) × List ReadEvent) := do
  let r ← czi.read_image entry_index none none
  pure (r, [ReadEvent.image entry_index none none])

/-- The inner channel loop of `get_stack_data`: one single-plane read per
channel index at a fixed plane index. -/
def stack_channel_loop (czi : CziFile) (scene_index : Nat) (plane_index : Nat) :
    List Nat → Except Err (List (List Nat) × List (List String) × List ReadEvent)
  | [] => Except.ok ([], [], [])
  | channel_index :: rest => do
    let (shape0, dims0) ← czi.read_image scene_index (some plane_index) (some channel_index)
    let (shapes, dimss, evs) ← stack_channel_loop czi scene_index plane_index rest
    pure (shape0 :: shapes, dims0 :: dimss,
      ReadEvent.image scene_index (some plane_index) (some channel_index) :: evs)

/-- The outer plane loop of `get_stack_data`. -/
def stack_plane_loop (czi : CziFile) (scene_index : Nat) (n_channels : Nat) :
    List Nat →
      Except Err (List (List (List Nat)) × List (List (List String)) × List ReadEvent)
  | [] => Except.ok ([], [], [])
  | plane_index :: rest => do
    let (shapes, dimss, evs1) ←
      stack_channel_loop czi scene_index plane_index (List.range n_channels)
    let (shapes2, dims2, evs2) ← stack_plane_loop czi scene_index n_channels rest
    pure (shapes :: shapes2, dimss :: dims2, evs1 ++ evs2)

/-- `get_stack_data` from `read.py`: plane and channel counts are read from
row 0 of `get_dims_shape()`, then one single-plane read is issued per
`(Z, C)` pair and the results are collected with `np.array`. -/
def get_stack_data (czi : CziFile) (scene_index : Nat) :
    Except Err ((List Nat × List (List (List String))) × List ReadEvent) := do
  let row0 ← listGet czi.shape 0
  let zc ← dictGet row0 "Z"
  let n_planes := zc.2
  let cc ← dictGet row0 "C"
  let n_channels := cc.2
  let (shapes2, dims2, evs) ← stack_plane_loop czi scene_index n_channels (List.range n_planes)
  let arr ← npArrayShape2 shapes2
  pure ((arr, dims2), evs)

/-- The inner plane loop of `get_mosaic_data` (depth case): one tiled read
per plane over the first bounding box, each squeezed. -/
def mosaic_z_loop (czi : CziFile) (bboxes : List BBox) (channel : Nat) :
    List Nat → Except Err (List (List Nat) × List ReadEvent)
  | [] => Except.ok ([], [])
  | plane :: rest => do
    let bbox0 ← listGet bboxes 0
    let mosaic_data ← czi.read_mosaic (bbox0.x, bbox0.y, bbox0.w, bbox0.h) 1 channel (some plane)
    let (planes, evs) ← mosaic_z_loop czi bboxes channel rest
    pure (npSqueeze mosaic_data :: planes,
      ReadEvent.mosaic (bbox0.x, bbox0.y, bbox0.w, bbox0.h) 1 channel (some plane) :: evs)

/-- The channel loop of `get_mosaic_data`: with a depth axis it runs the
plane loop over the entry's declared `Z` count, otherwise it issues a
single tiled read per channel. -/
def mosaic_channel_loop (czi : CziFile) (bboxes : List BBox) (czi_dims : String)
    (row : ShapeEntry) :
    List Nat → Except Err (List (List (List Nat)) × List ReadEvent)
  | [] => Except.ok ([], [])
  | channel :: rest => do
    if has_stacks czi_dims then
      let zc ← dictGet row "Z"
      let (planes, evs1) ← mosaic_z_loop czi bboxes channel (List.range zc.2)
      let (chs, evs2) ← mosaic_channel_loop czi bboxes czi_dims row rest
      pure (planes :: chs, evs1 ++ evs2)
    else
      let bbox0 ← listGet bboxes 0
      let mosaic_data ← czi.read_mosaic (bbox0.x, bbox0.y, bbox0.w, bbox0.h) 1 channel none
      let (chs, evs2) ← mosaic_channel_loop czi bboxes czi_dims row rest
      pure ([npSqueeze mosaic_data] :: chs,
        ReadEvent.mosaic (bbox0.x, bbox0.y, bbox0.w, bbox0.h) 1 channel none :: evs2)

/-- `get_mosaic_data` from `read.py`: channel (and, with a depth axis,
plane) counts come from the entry's own shape-table row; the assembled
nested list goes through `np.array`, and without a depth axis the two
leading axes are swapped. -/
def get_mosaic_data (czi : CziFile) (entry_index : Nat) (czi_dims : String)
    (czi_shape : CziShape) : Except Err (List Nat × List ReadEvent) := do
  let bboxes := czi.bboxes
  let row ← listGet czi_shape entry_index
  let cc ← dictGet row "C"
  let (channels, evs) ← mosaic_channel_loop czi bboxes czi_dims row (List.range cc.2)
  let img ← npArrayShape2 channels
  let img2 ← if !has_stacks czi_dims then npSwap01 img else pure img
  pure (img2, evs)

/-- The `is_homogenous` computation of `process_czi` (lines 174-185),
including the shape-table accesses its conditions perform. -/
def compute_is_homogenous (czi_dims : String) (czi_shape : CziShape) : Except Err Bool :=
  if has_scenes czi_dims then
    if 1 < czi_shape.length then
      match listGet czi_shape 0 with
      | Except.error e => Except.error e
      | Except.ok row0 =>
        match dictGet row0 "S" with
        | Except.error e => Except.error e
        | Except.ok s0 =>
          if czi_shape.length ≠ s0.2 then Except.ok false else Except.ok true
    else if czi_shape.length = 1 then
      match listGet czi_shape 0 with
      | Except.error e => Except.error e
      | Except.ok row0 =>
        match dictGet row0 "S" with
        | Except.error e => Except.error e
        | Except.ok _ => Except.ok true
    else Except.ok true
  else Except.ok true

/-- The entry enumeration of `process_czi` (lines 200-203): the declared
scene count when scenes are present and the table is homogeneous, else one
entry per raw shape-table row. -/
def compute_entry_indexes (czi_dims : String) (czi_shape : CziShape) :
    Except Err (List Nat) :=
  match compute_is_homogenous czi_dims czi_shape with
  | Except.error e => Except.error e
  | Except.ok is_homogenous =>
    if has_scenes czi_dims && is_homogenous then
      match listGet czi_shape 0 with
      | Except.error e => Except.error e
      | Except.ok row0 =>
        match dictGet row0 "S" with
        | Except.error e => Except.error e
        | Except.ok s0 => Except.ok (List.range s0.2)
    else Except.ok (List.range czi_shape.length)

/-- The export configuration (`export.py`). -/
structure ExportParams where
  output_dir : String
  bit_depth : Nat
deriving DecidableEq, Repr

/-- One `imwrite` call: target path, array shape, the 2-D resolution pair,
the `spacing` metadata (the full calibration vector) and the unit. -/
structure WriteCall where
  path : String
  imgShape : List Nat
  resolution : ℚ × ℚ
  spacing : List ℚ
  unit : String
deriving DecidableEq, Repr

/-- The `is_mosaic` computation of the per-entry loop (lines 206-209):
with a mosaic axis, the entry's own shape-table row is consulted. -/
def compute_is_mosaic (czi_dims : String) (czi_shape : CziShape) (entry_index : Nat) :
    Except Err Bool := do
  if has_mosaics czi_dims then
    let row ← listGet czi_shape entry_index
    let m ← dictGet row "M"
    pure (decide (0 < m.2))
  else
    pure false

/-- The body of the per-entry loop of `process_czi` (lines 205-245):
strategy selection, the squeeze / conditional leading-axis swap applied in
the non-mosaic branch, and the final `imwrite` call. -/
def process_entry (czi : CziFile) (czi_dims : String) (czi_shape : CziShape)
    (resolution : List ℚ) (stem : String) (export_params : ExportParams)
    (entry_index : Nat) : Except Err (WriteCall × List ReadEvent) := do
  let is_mosaic ← compute_is_mosaic czi_dims czi_shape entry_index
  let (img, events) ←
    if !is_mosaic then do
      let (raw, events) ←
        if has_stacks czi_dims then do
          let ((shape0, _dims0), evs) ← get_stack_data czi entry_index
          pure (shape0, evs)
        else do
          let ((shape0, _dims0), evs) ← get_scene_data czi entry_index
          pure (shape0, evs)
      let img0 := npSqueeze raw
      let img1 ←
        if 3 < img0.length then
          if !has_stacks czi_dims then npSwap01 img0 else pure img0
        else pure img0
      pure (img1, events)
    else
      get_mosaic_data czi entry_index czi_dims czi_shape
  let r0 ← listGet resolution 0
  let r1 ← listGet resolution 1
  pure ({ path := export_params.output_dir ++ "/" ++ stem ++ "_" ++ toString entry_index ++ ".tif",
          imgShape := img,
          resolution := (r0, r1),
          spacing := resolution,
          unit := "micron" }, events)

/-- The per-entry loop of `process_czi`: entries are processed in order;
the first failure aborts the loop, keeping the writes already performed. -/
def process_entries (czi : CziFile) (czi_dims : String) (czi_shape : CziShape)
    (resolution : List ℚ) (stem : String) (export_params : ExportParams) :
    List Nat → List WriteCall × Except Err Unit
  | [] => ([], Except.ok ())
  | entry_index :: rest =>
    match process_entry czi czi_dims czi_shape resolution stem export_params entry_index with
    | Except.error e => ([], Except.error e)
    | Except.ok (w, _evs) =>
      match process_entries czi czi_dims czi_shape resolution stem export_params rest with
      | (ws, r) => (w :: ws, r)

/-- `process_czi` from `read.py`: open outcome, calibration, entry
enumeration, then the per-entry loop.  Returns the writes performed and
the overall outcome (the code re-raises every exception it logs). -/
def process_czi (open_result : Except Err CziFile) (stem : String)
    (export_params : ExportParams) : List WriteCall × Except Err Unit :=
  match open_result with
  | Except.error e => ([], Except.error e)
  | Except.ok czi =>
    match get_resolution czi.meta with
    | Except.error e => ([], Except.error e)
    | Except.ok resolution =>
      match compute_entry_indexes czi.dims czi.shape with
      | Except.error e => ([], Except.error e)
      | Except.ok entry_indexes =>
        process_entries czi czi.dims czi.shape resolution stem export_params entry_indexes

/-- One image of the flat (LIF) container kind: its name, optional
calibration triple and the shape of `np.array(image.get_frame())`. -/
structure LifImage where
  name : String
  scale : Option (ℚ × ℚ × ℚ)
  frameShape : List Nat

/-- The open LIF container: its declared image list. -/
structure LifFile where
  images : List LifImage

/-- `process_lif` from `read.py`: one write per declared image, with the
default `(1, 1, 1)` calibration when the image carries none. -/
def process_lif (lif : LifFile) (stem : String) (export_params : ExportParams) :
    List WriteCall :=
  lif.images.map (fun image =>
    let rs : ℚ × ℚ × ℚ :=
      match image.scale with
      | none => (1, 1, 1)
      | some s => s
    { path := export_params.output_dir ++ "/" ++ stem ++ "_" ++ image.name ++ ".tif",
      imgShape := image.frameShape,
      resolution := (rs.1, rs.2.1),
      spacing := [rs.1, rs.2.1, rs.2.2],
      unit := "micron" })

/-- An input path as consulted by `process_file`: its stem and its
extension (with the leading dot, as `Path.suffix`). -/
structure InputPath where
  stem : String
  suffix : String
deriving DecidableEq, Repr

/-- Observable container-level actions of `process_file`: attempting to
open a container of either kind, and writing one artifact. -/
inductive FileEvent where
  | openCzi
  | openLif
  | write (w : WriteCall)
deriving DecidableEq, Repr

/-- `process_file` from `read.py`: dispatch on the lower-cased extension;
`.czi` and `.lif` go to their pipelines (whose open outcomes are the
supplied oracles), anything else raises `ValueError` with no container
opened. -/
def process_file (file : InputPath) (open_czi : Except Err CziFile)
    (open_lif : Except Err LifFile) (export_params : ExportParams) :
    List FileEvent × Except Err Unit :=
  let file_extension := pyLower file.suffix
  if file_extension = ".czi" then
    match process_czi open_czi file.stem export_params with
    | (ws, r) => (FileEvent.openCzi :: ws.map FileEvent.write, r)
  else if file_extension = ".lif" then
    match open_lif with
    | Except.error e => ([FileEvent.openLif], Except.error e)
    | Except.ok lif =>
      (FileEvent.openLif ::
        (process_lif lif file.stem export_params).map FileEvent.write, Except.ok ())
  else
    ([], Except.error Err.valueError)

/-- The write extracted from a successful per-entry outcome. -/
def okWrite (r : Except Err (WriteCall × List ReadEvent)) : Option WriteCall :=
  match r with
  | Except.ok (w, _) => some w
  | Except.error _ => none

/-- A metadata document with no distance records at all. -/
def emptyMeta : CziMeta :=
  { distX := none, distY := none, distZ := none }

/-- A mosaic container in the compact homogeneous form: dimension string
`SMCYX`, a single shape-table row declaring scene count 2, with the first
entry non-mosaic (`M` count 0). -/
def cziC2 : CziFile :=
  { dims := "SMCYX"
    shape := [[("S", ((0 : Int), 2)), ("M", ((0 : Int), 0)), ("C", ((0 : Int), 1))]]
    meta := emptyMeta
    bboxes := [⟨0, 0, 10, 10⟩]
    read_image := fun _ _ _ => Except.ok ([1, 1, 1, 5, 5], ["B", "S", "C", "Y", "X"])
    read_mosaic := fun _ _ _ _ => Except.ok [1, 1, 5, 5] }

/-- A single-entry mosaic container with a depth axis whose channel and
depth counts are both 1, so the assembled mosaic array keeps two
singleton leading axes. -/
def cziC3 : CziFile :=
  { dims := "MCZYX"
    shape := [[("M", ((0 : Int), 1)), ("C", ((0 : Int), 1)), ("Z", ((0 : Int), 1))]]
    meta := emptyMeta
    bboxes := [⟨0, 0, 5, 4⟩]
    read_image := fun _ _ _ => Except.error Err.readError
    read_mosaic := fun _ _ _ _ => Except.ok [1, 1, 4, 5] }

/-- A heterogeneous two-row container with stacks: row 0 declares depth
count 2 while row 1 declares depth count 3. -/
def cziC4 : CziFile :=
  { dims := "SZCYX"
    shape := [[("S", ((0 : Int), 1)), ("Z", ((0 : Int), 2)), ("C", ((0 : Int), 1))],
              [("S", ((1 : Int), 1)), ("Z", ((0 : Int), 3)), ("C", ((0 : Int), 1))]]
    meta := emptyMeta
    bboxes := []
    read_image := fun _ _ _ => Except.ok ([1, 1, 1, 4, 4], ["B", "C", "Z", "Y", "X"])
    read_mosaic := fun _ _ _ _ => Except.error Err.readError }

/-- A mosaic container with a depth axis, channel count 2 and depth
count 3. -/
def cziW7 : CziFile :=
  { dims := "MCZYX"
    shape := [[("M", ((0 : Int), 4)), ("C", ((0 : Int), 2)), ("Z", ((0 : Int), 3))]]
    meta := emptyMeta
    bboxes := [⟨0, 0, 7, 6⟩]
    read_image := fun _ _ _ => Except.error Err.readError
    read_mosaic := fun _ _ _ _ => Except.ok [1, 1, 6, 7] }

/-- A three-scene container whose plane reads succeed for scenes 0 and 1
and fail for scene 2. -/
def cziW9 : CziFile :=
  { dims := "SYX"
    shape := [[("S", ((0 : Int), 3))]]
    meta := emptyMeta
    bboxes := []
    read_image := fun s _ _ =>
      if s ≤ 1 then Except.ok ([1, 1, 4, 4], ["B", "S", "Y", "X"])
      else Except.error Err.readError
    read_mosaic := fun _ _ _ _ => Except.error Err.readError }

/-- A trivial CZI container used where only dispatch matters. -/
def cziDummy : CziFile :=
  { dims := ""
    shape := []
    meta := emptyMeta
    bboxes := []
    read_image := fun _ _ _ => Except.error Err.readError
    read_mosaic := fun _ _ _ _ => Except.error Err.readError }

/-- A trivial LIF container used where only dispatch matters. -/
def lifDummy : LifFile :=
  { images := [] }


/-! ### Helper lemmas -/

theorem exceptBind_ok {ε α β : Type} (a : α) (f : α → Except ε β) :
    (Except.ok a : Except ε α) >>= f = f a := rfl

theorem exceptBind_error {ε α β : Type} (e : ε) (f : α → Except ε β) :
    (Except.error e : Except ε α) >>= f = Except.error e := rfl

theorem exceptPure_eq_ok {ε α : Type} (a : α) :
    (pure a : Except ε α) = Except.ok a := rfl

theorem listGet_ok_pos {α : Type} {xs : List α} {v : α} (h : listGet xs 0 = Except.ok v) :
    0 < xs.length := by
  cases xs with
  | nil => simp [listGet] at h
  | cons a l => simp

theorem map_const_replicate {α β : Type} (l : List α) (b : β) :
    l.map (fun _ => b) = List.replicate l.length b := by
  induction l with
  | nil => rfl
  | cons a l ih => simp [List.replicate, ih]

theorem npArrayShape1_replicate (n : Nat) (s : List Nat) (h : 1 ≤ n) :
    npArrayShape1 (List.replicate n s) = Except.ok (n :: s) := by
  cases n with
  | zero => omega
  | succ m =>
    simp only [List.replicate, npArrayShape1]
    rw [if_pos]
    · simp
    · simp only [List.all_eq_true]
      intro t ht
      simp [List.eq_of_mem_replicate ht]

theorem npMapShape1_replicate (n : Nat) (row : List (List Nat)) (s : List Nat)
    (h : npArrayShape1 row = Except.ok s) :
    npMapShape1 (List.replicate n row) = Except.ok (List.replicate n s) := by
  induction n with
  | zero => rfl
  | succ m ih => simp [List.replicate, npMapShape1, h, ih]

theorem mosaic_z_loop_reads (czi : CziFile) (bboxes : List BBox) (b0 : BBox) (channel : Nat)
    (sh : Nat → List Nat) (hb : listGet bboxes 0 = Except.ok b0) :
    ∀ zs : List Nat,
      (∀ z ∈ zs, czi.read_mosaic (b0.x, b0.y, b0.w, b0.h) 1 channel (some z) = Except.ok (sh z)) →
      mosaic_z_loop czi bboxes channel zs =
        Except.ok (zs.map (fun z => npSqueeze (sh z)),
          zs.map (fun z => ReadEvent.mosaic (b0.x, b0.y, b0.w, b0.h) 1 channel (some z))) := by
  intro zs
  induction zs with
  | nil => intro _; rfl
  | cons z rest ih =>
    intro h
    have hz := h z (by simp)
    have hrest := ih (fun x hx => h x (by simp [hx]))
    simp [mosaic_z_loop, hb, hz, hrest, exceptBind_ok, exceptPure_eq_ok]

theorem mosaic_channel_loop_reads (czi : CziFile) (bboxes : List BBox) (b0 : BBox)
    (czi_dims : String) (row : ShapeEntry) (zst : Int) (zc : Nat) (sh : Nat → Nat → List Nat)
    (hst : has_stacks czi_dims = true) (hb : listGet bboxes 0 = Except.ok b0)
    (hZ : dictGet row "Z" = Except.ok (zst, zc)) :
    ∀ cs : List Nat,
      (∀ c ∈ cs, ∀ z < zc,
        czi.read_mosaic (b0.x, b0.y, b0.w, b0.h) 1 c (some z) = Except.ok (sh c z)) →
      mosaic_channel_loop czi bboxes czi_dims row cs =
        Except.ok (cs.map (fun c => (List.range zc).map (fun z => npSqueeze (sh c z))),
          cs.flatMap (fun c => (List.range zc).map (fun z =>
            ReadEvent.mosaic (b0.x, b0.y, b0.w, b0.h) 1 c (some z)))) := by
  intro cs
  induction cs with
  | nil => intro _; rfl
  | cons c rest ih =>
    intro h
    have hc := mosaic_z_loop_reads czi bboxes b0 c (sh c) hb (List.range zc)
      (fun z hz => h c (by simp) z (List.mem_range.mp hz))
    have hrest := ih (fun x hx => h x (by simp [hx]))
    simp [mosaic_channel_loop, hst, hZ, hc, hrest, exceptBind_ok, exceptPure_eq_ok]

theorem stack_channel_loop_const (czi : CziFile) (scene_index plane_index : Nat)
    (s : List Nat) (d : List String) :
    ∀ cs : List Nat,
      (∀ c ∈ cs, czi.read_image scene_index (some plane_index) (some c) = Except.ok (s, d)) →
      stack_channel_loop czi scene_index plane_index cs =
        Except.ok (cs.map (fun _ => s), cs.map (fun _ => d),
          cs.map (fun c => ReadEvent.image scene_index (some plane_index) (some c))) := by
  intro cs
  induction cs with
  | nil => intro _; rfl
  | cons c rest ih =>
    intro h
    have hc := h c (by simp)
    have hrest := ih (fun x hx => h x (by simp [hx]))
    simp [stack_channel_loop, hc, hrest, exceptBind_ok, exceptPure_eq_ok]

theorem stack_plane_loop_const (czi : CziFile) (scene_index n_channels : Nat)
    (s : List Nat) (d : List String) :
    ∀ zs : List Nat,
      (∀ z ∈ zs, ∀ c < n_channels,
        czi.read_image scene_index (some z) (some c) = Except.ok (s, d)) →
      stack_plane_loop czi scene_index n_channels zs =
        Except.ok (zs.map (fun _ => (List.range n_channels).map (fun _ => s)),
          zs.map (fun _ => (List.range n_channels).map (fun _ => d)),
          zs.flatMap (fun z => (List.range n_channels).map (fun c =>
            ReadEvent.image scene_index (some z) (some c)))) := by
  intro zs
  induction zs with
  | nil => intro _; rfl
  | cons z rest ih =>
    intro h
    have hz := stack_channel_loop_const czi scene_index z s d (List.range n_channels)
      (fun c hc => h z (by simp) c (List.mem_range.mp hc))
    have hrest := ih (fun x hx c hc => h x (by simp [hx]) c hc)
    simp [stack_plane_loop, hz, hrest, exceptBind_ok, exceptPure_eq_ok]

theorem flatMap_range_map_length {β : Type} (l : List Nat) (zc : Nat) (g : Nat → Nat → β) :
    (l.flatMap (fun c => (List.range zc).map (g c))).length = l.length * zc := by
  induction l with
  | nil => simp
  | cons a t ih => simp [ih, Nat.succ_mul, Nat.add_comm]

theorem process_entries_stops_at_error (czi : CziFile) (czi_dims : String)
    (czi_shape : CziShape) (resolution : List ℚ) (stem : String)
    (export_params : ExportParams) (k : Nat) (post : List Nat) (e : Err)
    (hfail : process_entry czi czi_dims czi_shape resolution stem export_params k =
      Except.error e) :
    ∀ pre : List Nat,
      (∀ i ∈ pre, ∃ r,
        process_entry czi czi_dims czi_shape resolution stem export_params i = Except.ok r) →
      process_entries czi czi_dims czi_shape resolution stem export_params (pre ++ k :: post) =
        (pre.filterMap (fun i =>
          okWrite (process_entry czi czi_dims czi_shape resolution stem export_params i)),
         Except.error e) := by
  intro pre
  induction pre with
  | nil =>
    intro _
    simp [process_entries, hfail]
  | cons i rest ih =>
    intro h
    obtain ⟨r, hr⟩ := h i (by simp)
    have hrest := ih (fun x hx => h x (by simp [hx]))
    cases r with
    | mk w evs =>
      simp [process_entries, hr, hrest, okWrite]

/-! ### Claims -/

/-- C5: for every metadata document lacking an X-distance record, the
calibration resolver returns exactly the default vector `(1, 1, 1)` and
does not raise. -/
theorem resolution_default_when_x_missing (m : CziMeta) (h : m.distX = none) :
    get_resolution m = Except.ok [1, 1, 1] := by
  unfold get_resolution
  rw [h]

theorem resolution_default_check :
    get_resolution emptyMeta = Except.ok [1, 1, 1] :=
  resolution_default_when_x_missing emptyMeta rfl

/-- C6: for every metadata document with valid numeric X and Y distance
records and no Z record — or a Z record that is malformed (empty text) or
non-numeric — the calibration resolver returns the 2-component vector
`(1/(x*1e6), 1/(y*1e6))`, not a 3-component vector with a fabricated Z. -/
theorem resolution_two_components_without_z (m : CziMeta) (x y : ℚ)
    (hx : m.distX = some (some (Txt.num x)))
    (hy : m.distY = some (some (Txt.num y)))
    (hz : m.distZ = none ∨ m.distZ = some none ∨ m.distZ = some (some Txt.nonNum))
    (hx0 : x ≠ 0) (hy0 : y ≠ 0) :
    get_resolution m = Except.ok [1 / (x * 1000000), 1 / (y * 1000000)] := by
  have hx6 : x * 1000000 ≠ 0 := mul_ne_zero hx0 (by norm_num)
  have hy6 : y * 1000000 ≠ 0 := mul_ne_zero hy0 (by norm_num)
  unfold get_resolution
  rw [hx, hy]
  rcases hz with h | h | h <;>
    simp [h, pyFloat, pyDiv, hx6, hy6]

theorem resolution_two_components_check :
    get_resolution
        { distX := some (some (Txt.num 1)), distY := some (some (Txt.num 1)),
          distZ := some (some Txt.nonNum) } =
      Except.ok [1 / (1 * 1000000), 1 / (1 * 1000000)] :=
  resolution_two_components_without_z _ 1 1 rfl rfl (Or.inr (Or.inr rfl))
    (by norm_num) (by norm_num)

/-- C8: for every input path whose lower-cased extension is neither
`.czi` nor `.lif`, `process_file` raises `ValueError` with an empty event
trace: no container-open call is ever attempted, whatever the open
oracles would have returned. -/
theorem unsupported_extension_fails_before_open (file : InputPath)
    (open_czi : Except Err CziFile) (open_lif : Except Err LifFile)
    (export_params : ExportParams)
    (h1 : pyLower file.suffix ≠ ".czi") (h2 : pyLower file.suffix ≠ ".lif") :
    process_file file open_czi open_lif export_params =
      ([], Except.error Err.valueError) := by
  simp [process_file, h1, h2]

theorem unsupported_extension_check :
    process_file ⟨"data", ".txt"⟩ (Except.error Err.readError)
      (Except.error Err.readError) ⟨"out", 16⟩ = ([], Except.error Err.valueError) :=
  unsupported_extension_fails_before_open ⟨"data", ".txt"⟩ (Except.error Err.readError)
    (Except.error Err.readError) ⟨"out", 16⟩ (by decide) (by decide)

theorem process_entry_bit_depth_unused (czi : CziFile) (czi_dims : String)
    (czi_shape : CziShape) (resolution : List ℚ) (stem : String)
    (output_dir : String) (bd1 bd2 : Nat) (entry_index : Nat) :
    process_entry czi czi_dims czi_shape resolution stem ⟨output_dir, bd1⟩ entry_index =
      process_entry czi czi_dims czi_shape resolution stem ⟨output_dir, bd2⟩ entry_index := rfl

theorem process_entries_bit_depth_unused (czi : CziFile) (czi_dims : String)
    (czi_shape : CziShape) (resolution : List ℚ) (stem : String)
    (output_dir : String) (bd1 bd2 : Nat) :
    ∀ l : List Nat,
      process_entries czi czi_dims czi_shape resolution stem ⟨output_dir, bd1⟩ l =
        process_entries czi czi_dims czi_shape resolution stem ⟨output_dir, bd2⟩ l := by
  intro l
  induction l with
  | nil => rfl
  | cons i rest ih =>
    simp only [process_entries, ih,
      process_entry_bit_depth_unused czi czi_dims czi_shape resolution stem output_dir bd1 bd2 i]

theorem process_czi_bit_depth_unused (open_result : Except Err CziFile) (stem : String)
    (output_dir : String) (bd1 bd2 : Nat) :
    process_czi open_result stem ⟨output_dir, bd1⟩ =
      process_czi open_result stem ⟨output_dir, bd2⟩ := by
  cases open_result with
  | error e => rfl
  | ok czi =>
    simp only [process_czi]
    cases get_resolution czi.meta with
    | error e => rfl
    | ok resolution =>
      cases compute_entry_indexes czi.dims czi.shape with
      | error e => rfl
      | ok entry_indexes =>
        exact process_entries_bit_depth_unused czi czi.dims czi.shape resolution stem
          output_dir bd1 bd2 entry_indexes

/-- C10: the written artifacts are independent of the configured bit
depth: two export configurations that differ only in `bit_depth` produce
identical event traces and outcomes on every input, for both container
pipelines — the `bit_depth` field is never consulted. -/
theorem writes_independent_of_bit_depth (file : InputPath)
    (open_czi : Except Err CziFile) (open_lif : Except Err LifFile)
    (output_dir : String) (bd1 bd2 : Nat) :
    process_file file open_czi open_lif ⟨output_dir, bd1⟩ =
      process_file file open_czi open_lif ⟨output_dir, bd2⟩ := by
  unfold process_file
  by_cases h1 : pyLower file.suffix = ".czi"
  · simp only [h1, if_pos,
      process_czi_bit_depth_unused open_czi file.stem output_dir bd1 bd2]
  · by_cases h2 : pyLower file.suffix = ".lif"
    · simp only [h1, h2, if_neg, if_pos]
      cases open_lif with
      | error e => rfl
      | ok lif => rfl
    · simp [h1, h2]

/-- C2: falsified — on the compact homogeneous form (single shape-table
row, scene count 2) with a mosaic axis, entry 1 is enumerated but its
`isMosaic` lookup `czi_shape[1]["M"]` is out of bounds, so the file fails
with `IndexError` after writing entry 0, instead of reusing the single
shape row. -/
theorem homogeneous_mosaic_lookup_out_of_bounds :
    process_czi (Except.ok cziC2) "sample" ⟨"out", 16⟩ =
      ([{ path := "out/sample_0.tif", imgShape := [5, 5], resolution := (1, 1),
          spacing := [1, 1, 1], unit := "micron" }],
       Except.error Err.indexError) := by
  rfl

/-- C1: with a scene axis and a homogeneous shape table (length equal to
the declared scene count, or length 1 with a declared scene count above 1)
the classifier enumerates entries `0..scene_count-1`; in every other case
(no scene axis, or heterogeneous per-scene shapes) it enumerates one entry
per raw shape-table row, `0..len-1`. -/
theorem entry_enumeration_matches_spec (czi_dims : String) (czi_shape : CziShape)
    (row0 : ShapeEntry) (sst : Int) (sc : Nat)
    (h0 : listGet czi_shape 0 = Except.ok row0)
    (hS : dictGet row0 "S" = Except.ok (sst, sc))
    (hsc : 1 ≤ sc) :
    (has_scenes czi_dims = true →
      compute_entry_indexes czi_dims czi_shape =
        Except.ok (List.range
          (if czi_shape.length = sc ∨ (czi_shape.length = 1 ∧ 1 < sc) then sc
           else czi_shape.length)))
    ∧ (has_scenes czi_dims = false →
      compute_entry_indexes czi_dims czi_shape = Except.ok (List.range czi_shape.length)) := by
  have hlen : 0 < czi_shape.length := listGet_ok_pos h0
  refine ⟨fun hs => ?_, fun hs => ?_⟩
  · by_cases hl : 1 < czi_shape.length
    · by_cases heq : czi_shape.length = sc
      · rw [if_pos (Or.inl heq)]
        simp [compute_entry_indexes, compute_is_homogenous, hs, hl, h0, hS, heq]
      · rw [if_neg (by omega)]
        simp [compute_entry_indexes, compute_is_homogenous, hs, hl, h0, hS, heq]
    · have hl1 : czi_shape.length = 1 := by omega
      rw [if_pos (by omega)]
      simp [compute_entry_indexes, compute_is_homogenous, hs, hl, hl1, h0, hS]
  · simp [compute_entry_indexes, compute_is_homogenous, hs]

theorem entry_enumeration_check :
    compute_entry_indexes "SYX" [[("S", ((0 : Int), 3))]] = Except.ok [0, 1, 2] :=
  (entry_enumeration_matches_spec "SYX" [[("S", ((0 : Int), 3))]] [("S", ((0 : Int), 3))]
    0 3 (by decide) (by decide) (by decide)).1 (by decide)

/-- C7: for every mosaic entry with a depth axis, channel count `C` and
depth count `Z` (both at least 1), whose tiled reads all succeed with a
common squeezed plane shape `p`, the mosaic-with-depth strategy issues
exactly `C*Z` tiled-mosaic reads — channel outer, depth inner, all over
the first declared bounding box — and produces an array whose two leading
axes have sizes `(C, Z)` in that order, with no leading-axis swap. -/
theorem mosaic_with_depth_reads_and_shape (czi : CziFile) (entry_index : Nat)
    (czi_dims : String) (czi_shape : CziShape) (row : ShapeEntry)
    (cst zst : Int) (C Z : Nat) (b0 : BBox) (sh : Nat → Nat → List Nat) (p : List Nat)
    (hst : has_stacks czi_dims = true)
    (hrow : listGet czi_shape entry_index = Except.ok row)
    (hC : dictGet row "C" = Except.ok (cst, C))
    (hZ : dictGet row "Z" = Except.ok (zst, Z))
    (hb : listGet czi.bboxes 0 = Except.ok b0)
    (hread : ∀ c < C, ∀ z < Z,
      czi.read_mosaic (b0.x, b0.y, b0.w, b0.h) 1 c (some z) = Except.ok (sh c z))
    (hsq : ∀ c < C, ∀ z < Z, npSqueeze (sh c z) = p)
    (hC1 : 1 ≤ C) (hZ1 : 1 ≤ Z) :
    get_mosaic_data czi entry_index czi_dims czi_shape =
        Except.ok (C :: Z :: p,
          (List.range C).flatMap (fun c => (List.range Z).map (fun z =>
            ReadEvent.mosaic (b0.x, b0.y, b0.w, b0.h) 1 c (some z))))
      ∧ ((List.range C).flatMap (fun c => (List.range Z).map (fun z =>
            ReadEvent.mosaic (b0.x, b0.y, b0.w, b0.h) 1 c (some z)))).length = C * Z := by
  constructor
  · have hloop := mosaic_channel_loop_reads czi czi.bboxes b0 czi_dims row zst Z sh hst hb hZ
      (List.range C) (fun c hc z hz => hread c (List.mem_range.mp hc) z hz)
    have hinner : ∀ c ∈ List.range C,
        (List.range Z).map (fun z => npSqueeze (sh c z)) = List.replicate Z p := by
      intro c hc
      have hp : ∀ z ∈ List.range Z, npSqueeze (sh c z) = p :=
        fun z hz => hsq c (List.mem_range.mp hc) z (List.mem_range.mp hz)
      rw [List.map_congr_left hp, map_const_replicate, List.length_range]
    have hch : (List.range C).map
          (fun c => (List.range Z).map (fun z => npSqueeze (sh c z)))
        = List.replicate C (List.replicate Z p) := by
      rw [List.map_congr_left hinner, map_const_replicate, List.length_range]
    have harr : npArrayShape2 (List.replicate C (List.replicate Z p)) =
        Except.ok (C :: Z :: p) := by
      unfold npArrayShape2
      rw [npMapShape1_replicate C (List.replicate Z p) (Z :: p)
        (npArrayShape1_replicate Z p hZ1)]
      exact npArrayShape1_replicate C (Z :: p) hC1
    simp only [get_mosaic_data, hrow, hC, exceptBind_ok, hloop, hch, harr, hst,
      Bool.not_true, Bool.false_eq_true, if_false, exceptPure_eq_ok]
  · rw [flatMap_range_map_length (List.range C) Z
      (fun c z => ReadEvent.mosaic (b0.x, b0.y, b0.w, b0.h) 1 c (some z)),
      List.length_range]

theorem mosaic_with_depth_check :
    get_mosaic_data cziW7 0 cziW7.dims cziW7.shape =
        Except.ok (2 :: 3 :: [6, 7],
          (List.range 2).flatMap (fun c => (List.range 3).map (fun z =>
            ReadEvent.mosaic (0, 0, 7, 6) 1 c (some z))))
      ∧ ((List.range 2).flatMap (fun c => (List.range 3).map (fun z =>
            ReadEvent.mosaic (0, 0, 7, 6) 1 c (some z)))).length = 2 * 3 :=
  mosaic_with_depth_reads_and_shape cziW7 0 cziW7.dims cziW7.shape
    [("M", ((0 : Int), 4)), ("C", ((0 : Int), 2)), ("Z", ((0 : Int), 3))] 0 0 2 3
    ⟨0, 0, 7, 6⟩ (fun _ _ => [1, 1, 6, 7]) [6, 7] (by decide) (by decide) (by decide)
    (by decide) (by decide) (by decide) (by decide) (by decide) (by decide)

/-- C4 counterexample: on a heterogeneous two-row table whose row 1
declares depth count 3, the depth-stack strategy for entry 1 issues only
2 plane reads — row 0's depth count — so the per-entry counts the claim
describes are not what the code uses. -/
theorem stack_counts_row_zero_cex :
    get_stack_data cziC4 1 =
        Except.ok (([2, 1, 1, 1, 1, 4, 4],
            [[["B", "C", "Z", "Y", "X"]], [["B", "C", "Z", "Y", "X"]]]),
          [ReadEvent.image 1 (some 0) (some 0), ReadEvent.image 1 (some 1) (some 0)])
      ∧ listGet cziC4.shape 1 =
          Except.ok [("S", ((1 : Int), 1)), ("Z", ((0 : Int), 3)), ("C", ((0 : Int), 1))] :=
  ⟨rfl, rfl⟩

/-- C4 (amended): the depth-stack strategy reads its depth and channel
counts from shape-table row 0 regardless of which entry is being
assembled, while the mosaic strategy reads them from the entry's own row;
an absent axis key is a `KeyError`, never a default count of 1. -/
theorem stack_counts_from_row_zero (czi : CziFile) (k : Nat) (row0 : ShapeEntry)
    (zst cst : Int) (nZ nC : Nat) (s : List Nat) (d : List String)
    (czi_dims : String) (czi_shape : CziShape) (entry_index : Nat) (row : ShapeEntry) :
    (listGet czi.shape 0 = Except.ok row0 →
     dictGet row0 "Z" = Except.ok (zst, nZ) →
     dictGet row0 "C" = Except.ok (cst, nC) →
     (∀ z < nZ, ∀ c < nC, czi.read_image k (some z) (some c) = Except.ok (s, d)) →
     1 ≤ nZ → 1 ≤ nC →
     get_stack_data czi k =
       Except.ok ((nZ :: nC :: s, List.replicate nZ (List.replicate nC d)),
         (List.range nZ).flatMap (fun z => (List.range nC).map (fun c =>
           ReadEvent.image k (some z) (some c)))))
    ∧ (listGet czi.shape 0 = Except.ok row0 → row0.lookup "Z" = none →
        get_stack_data czi k = Except.error Err.keyError)
    ∧ (listGet czi_shape entry_index = Except.ok row → row.lookup "C" = none →
        get_mosaic_data czi entry_index czi_dims czi_shape = Except.error Err.keyError) := by
  refine ⟨fun h0 hZ hC hread hz1 hc1 => ?_, fun h0 hz => ?_, fun hrow hcl => ?_⟩
  · have hloop := stack_plane_loop_const czi k nC s d (List.range nZ)
      (fun z hz c hc => hread z (List.mem_range.mp hz) c hc)
    have hsh : (List.range nZ).map (fun _ => (List.range nC).map (fun _ => s))
        = List.replicate nZ (List.replicate nC s) := by
      simp [map_const_replicate]
    have hdm : (List.range nZ).map (fun _ => (List.range nC).map (fun _ => d))
        = List.replicate nZ (List.replicate nC d) := by
      simp [map_const_replicate]
    rw [hsh, hdm] at hloop
    have harr : npArrayShape2 (List.replicate nZ (List.replicate nC s)) =
        Except.ok (nZ :: nC :: s) := by
      unfold npArrayShape2
      rw [npMapShape1_replicate nZ (List.replicate nC s) (nC :: s)
        (npArrayShape1_replicate nC s hc1)]
      exact npArrayShape1_replicate nZ (nC :: s) hz1
    simp only [get_stack_data, h0, hZ, hC, exceptBind_ok, hloop, harr, exceptPure_eq_ok]
  · simp [get_stack_data, h0, dictGet, hz, exceptBind_ok, exceptBind_error]
  · simp [get_mosaic_data, hrow, dictGet, hcl, exceptBind_ok, exceptBind_error]

theorem stack_counts_from_row_zero_check :
    get_stack_data cziC4 1 =
      Except.ok ((2 :: 1 :: [1, 1, 1, 4, 4],
          List.replicate 2 (List.replicate 1 ["B", "C", "Z", "Y", "X"])),
        (List.range 2).flatMap (fun z => (List.range 1).map (fun c =>
          ReadEvent.image 1 (some z) (some c)))) :=
  (stack_counts_from_row_zero cziC4 1
    [("S", ((0 : Int), 1)), ("Z", ((0 : Int), 2)), ("C", ((0 : Int), 1))]
    0 0 2 1 [1, 1, 1, 4, 4] ["B", "C", "Z", "Y", "X"] "" [] 0 []).1
    (by decide) (by decide) (by decide) (by decide) (by decide) (by decide)

/-- C3 counterexample: a mosaic-with-depth entry whose channel and depth
counts are 1 is written with shape `[1, 1, 4, 5]` — the singleton axes
survive, so the claimed common squeeze post-processing is not applied to
the mosaic strategies. -/
theorem postprocessing_not_common_cex :
    process_entry cziC3 cziC3.dims cziC3.shape [1, 1, 1] "sample" ⟨"out", 16⟩ 0 =
        Except.ok
          ({ path := "out/sample_0.tif", imgShape := [1, 1, 4, 5],
             resolution := (1, 1), spacing := [1, 1, 1], unit := "micron" },
           [ReadEvent.mosaic (0, 0, 5, 4) 1 0 (some 0)])
      ∧ npSqueeze [1, 1, 4, 5] ≠ [1, 1, 4, 5] :=
  ⟨rfl, by decide⟩

/-- C3 (amended): the squeeze-then-conditional-swap post-processing is
applied only in the two non-mosaic strategies, and the leading-axis swap
there happens only when more than 3 axes remain after squeezing AND the
container has no depth axis (the simple-scene case); a mosaic entry's
assembled array is written exactly as `get_mosaic_data` produced it, with
no further squeeze or swap. -/
theorem postprocessing_per_strategy (czi : CziFile) (czi_dims : String)
    (czi_shape : CziShape) (resolution : List ℚ) (stem : String)
    (export_params : ExportParams) (entry_index : Nat) (row : ShapeEntry)
    (mst : Int) (mc : Nat) (mshape : List Nat) (mevs : List ReadEvent)
    (stackS : List Nat) (stackD : List (List (List String))) (stackEvs : List ReadEvent)
    (sceneS : List Nat) (sceneD : List String) (r0 r1 : ℚ) :
    (has_mosaics czi_dims = true →
     listGet czi_shape entry_index = Except.ok row →
     dictGet row "M" = Except.ok (mst, mc) →
     0 < mc →
     get_mosaic_data czi entry_index czi_dims czi_shape = Except.ok (mshape, mevs) →
     listGet resolution 0 = Except.ok r0 →
     listGet resolution 1 = Except.ok r1 →
     process_entry czi czi_dims czi_shape resolution stem export_params entry_index =
       Except.ok
         ({ path := export_params.output_dir ++ "/" ++ stem ++ "_" ++
                      toString entry_index ++ ".tif",
            imgShape := mshape, resolution := (r0, r1), spacing := resolution,
            unit := "micron" }, mevs))
    ∧ (has_mosaics czi_dims = false →
     has_stacks czi_dims = true →
     get_stack_data czi entry_index = Except.ok ((stackS, stackD), stackEvs) →
     listGet resolution 0 = Except.ok r0 →
     listGet resolution 1 = Except.ok r1 →
     process_entry czi czi_dims czi_shape resolution stem export_params entry_index =
       Except.ok
         ({ path := export_params.output_dir ++ "/" ++ stem ++ "_" ++
                      toString entry_index ++ ".tif",
            imgShape := npSqueeze stackS, resolution := (r0, r1), spacing := resolution,
            unit := "micron" }, stackEvs))
    ∧ (has_mosaics czi_dims = false →
     has_stacks czi_dims = false →
     czi.read_image entry_index none none = Except.ok (sceneS, sceneD) →
     listGet resolution 0 = Except.ok r0 →
     listGet resolution 1 = Except.ok r1 →
     process_entry czi czi_dims czi_shape resolution stem export_params entry_index =
       (if 3 < (npSqueeze sceneS).length then npSwap01 (npSqueeze sceneS)
        else Except.ok (npSqueeze sceneS)).map (fun img =>
         ({ path := export_params.output_dir ++ "/" ++ stem ++ "_" ++
                      toString entry_index ++ ".tif",
            imgShape := img, resolution := (r0, r1), spacing := resolution,
            unit := "micron" }, [ReadEvent.image entry_index none none]))) := by
  refine ⟨fun hm hrow hM hmc hmos hr0 hr1 => ?_,
    fun hm hst hstack hr0 hr1 => ?_, fun hm hst hscene hr0 hr1 => ?_⟩
  · have hdec : decide (0 < mc) = true := decide_eq_true hmc
    simp only [process_entry, compute_is_mosaic, hm, hrow, hM, exceptBind_ok,
      exceptPure_eq_ok, if_true, hdec, Bool.not_true, Bool.false_eq_true, if_false,
      hmos, hr0, hr1]
  · by_cases h3 : 3 < (npSqueeze stackS).length
    · simp only [process_entry, compute_is_mosaic, hm, Bool.false_eq_true, if_false,
        exceptPure_eq_ok, exceptBind_ok, Bool.not_false, if_true, hst, hstack,
        h3, Bool.not_true, hr0, hr1]
    · simp only [process_entry, compute_is_mosaic, hm, Bool.false_eq_true, if_false,
        exceptPure_eq_ok, exceptBind_ok, Bool.not_false, if_true, hst, hstack,
        h3, hr0, hr1]
  · by_cases h3 : 3 < (npSqueeze sceneS).length
    · rw [if_pos h3]
      cases hsw : npSwap01 (npSqueeze sceneS) with
      | error e =>
        simp only [process_entry, compute_is_mosaic, hm, Bool.false_eq_true, if_false,
          exceptPure_eq_ok, exceptBind_ok, Bool.not_false, if_true, hst,
          get_scene_data, hscene, h3, Bool.not_true, hsw, exceptBind_error, Except.map]
      | ok img =>
        simp only [process_entry, compute_is_mosaic, hm, Bool.false_eq_true, if_false,
          exceptPure_eq_ok, exceptBind_ok, Bool.not_false, if_true, hst,
          get_scene_data, hscene, h3, Bool.not_true, hsw, Except.map, hr0, hr1]
    · rw [if_neg h3]
      simp only [process_entry, compute_is_mosaic, hm, Bool.false_eq_true, if_false,
        exceptPure_eq_ok, exceptBind_ok, Bool.not_false, if_true, hst,
        get_scene_data, hscene, h3, Except.map, hr0, hr1]

theorem postprocessing_per_strategy_check :
    (process_entry cziC3 "MCZYX" cziC3.shape [1, 1, 1] "sample" ⟨"out", 16⟩ 0 =
        Except.ok
          ({ path := "out/sample_0.tif", imgShape := [1, 1, 4, 5],
             resolution := (1, 1), spacing := [1, 1, 1], unit := "micron" },
           [ReadEvent.mosaic (0, 0, 5, 4) 1 0 (some 0)]))
    ∧ (process_entry cziC4 "SZCYX" cziC4.shape [1, 1, 1] "sample" ⟨"out", 16⟩ 0 =
        Except.ok
          ({ path := "out/sample_0.tif", imgShape := [2, 4, 4],
             resolution := (1, 1), spacing := [1, 1, 1], unit := "micron" },
           [ReadEvent.image 0 (some 0) (some 0), ReadEvent.image 0 (some 1) (some 0)]))
    ∧ (process_entry cziW9 "SYX" cziW9.shape [1, 1, 1] "sample" ⟨"out", 16⟩ 0 =
        Except.ok
          ({ path := "out/sample_0.tif", imgShape := [4, 4],
             resolution := (1, 1), spacing := [1, 1, 1], unit := "micron" },
           [ReadEvent.image 0 none none])) :=
  ⟨(postprocessing_per_strategy cziC3 "MCZYX" cziC3.shape [1, 1, 1] "sample" ⟨"out", 16⟩ 0
      [("M", ((0 : Int), 1)), ("C", ((0 : Int), 1)), ("Z", ((0 : Int), 1))] 0 1 [1, 1, 4, 5]
      [ReadEvent.mosaic (0, 0, 5, 4) 1 0 (some 0)] [] [] [] [] [] 1 1).1
      (by decide) (by decide) (by decide) (by decide) (by decide) (by decide) (by decide),
   (postprocessing_per_strategy cziC4 "SZCYX" cziC4.shape [1, 1, 1] "sample" ⟨"out", 16⟩ 0
      [] 0 0 [] [] [2, 1, 1, 1, 1, 4, 4]
      [[["B", "C", "Z", "Y", "X"]], [["B", "C", "Z", "Y", "X"]]]
      [ReadEvent.image 0 (some 0) (some 0), ReadEvent.image 0 (some 1) (some 0)] [] [] 1 1).2.1
      (by decide) (by decide) (by decide) (by decide) (by decide),
   (postprocessing_per_strategy cziW9 "SYX" cziW9.shape [1, 1, 1] "sample" ⟨"out", 16⟩ 0
      [] 0 0 [] [] [] [] [] [1, 1, 4, 4] ["B", "S", "Y", "X"] 1 1).2.2
      (by decide) (by decide) (by decide) (by decide) (by decide)⟩

/-- C9: when the assembly of one entry fails, no artifact is written for
that entry (a write happens only after complete assembly), the failure
propagates out of the per-file processing so the remaining entries are
abandoned, and the artifacts already written for the earlier entries of
the same file remain. -/
theorem read_failure_abandons_remaining_entries (czi : CziFile) (stem : String)
    (export_params : ExportParams) (resolution : List ℚ) (pre post : List Nat)
    (k : Nat) (e : Err)
    (hres : get_resolution czi.meta = Except.ok resolution)
    (hent : compute_entry_indexes czi.dims czi.shape = Except.ok (pre ++ k :: post))
    (hpre : ∀ i ∈ pre, ∃ r,
      process_entry czi czi.dims czi.shape resolution stem export_params i = Except.ok r)
    (hfail : process_entry czi czi.dims czi.shape resolution stem export_params k =
      Except.error e) :
    process_czi (Except.ok czi) stem export_params =
      (pre.filterMap (fun i =>
        okWrite (process_entry czi czi.dims czi.shape resolution stem export_params i)),
       Except.error e) := by
  simp only [process_czi, hres, hent]
  exact process_entries_stops_at_error czi czi.dims czi.shape resolution stem export_params
    k post e hfail pre hpre

theorem read_failure_check :
    process_czi (Except.ok cziW9) "s" ⟨"o", 8⟩ =
      ([0, 1].filterMap (fun i =>
        okWrite (process_entry cziW9 cziW9.dims cziW9.shape [1, 1, 1] "s" ⟨"o", 8⟩ i)),
       Except.error Err.readError) :=
  read_failure_abandons_remaining_entries cziW9 "s" ⟨"o", 8⟩ [1, 1, 1] [0, 1] [] 2
    Err.readError (by decide) (by decide)
    (by intro i hi
        fin_cases hi
        · exact ⟨_, rfl⟩
        · exact ⟨_, rfl⟩)
    (by decide)
